import Mathlib

/-!
Shallow embedding of the OAuth2 / OpenID Connect login flow server
(`main.go` of pgaijin66/Google-OAuth-using-Auth0-and-Golang).

The handlers are Gin HTTP handlers.  Each handler is embedded as a pure
function from its request-visible inputs (query parameters, cookies, the
session value read through `sessions.Default(ctx)`) and from the outcomes
of its external calls (`oauth2.Config.Exchange`, the user-info HTTP GET,
`ioutil.ReadAll`, `url.Parse`, `generateRandomString`, `session.Save`)
to a record describing the HTTP response it writes: status, redirect
target, and the cookies set with `ctx.SetCookie`.  External library calls
are passed in as oracle parameters because their results depend on the
network and the random source, not on repository code.

Machine integers: the cookie Max-Age argument is a Go `int` holding Unix
seconds; all values involved are far below 2^63, so it is embedded as
`Int` with no wrap-around.
-/

/-- Mirrors Go `Profile` in `main.go`: the user-info document decoded from
the `profile` cookie. -/
structure Profile where
  sub : String
  givenName : String
  familyName : String
  nickname : String
  name : String
  picture : String
  locale : String
  updatedAt : String
  email : String
  emailVerified : Bool
deriving Repr, DecidableEq

/-- Go zero value of `Profile` (`var p Profile`): every string field empty,
the Bool field false. -/
def zeroProfile : Profile :=
  ⟨"", "", "", "", "", "", "", "", "", false⟩

/-- Mirrors `golang.org/x/oauth2.Token` as far as the repository uses it:
the access token string and whether the token is expired. -/
structure Token where
  accessToken : String
  expired : Bool
deriving Repr, DecidableEq

/-- Mirrors `oauth2.Token.Valid()`: the token is non-nil (a present value
here), has a non-empty access token, and is not expired. -/
def Token.valid (t : Token) : Bool :=
  t.accessToken ≠ "" && !t.expired

/-- One cookie written with gin `ctx.SetCookie(name, value, maxAge, path,
domain, secure, httpOnly)`.  `maxAge` is the third argument: gin passes it
to `net/http` as the Max-Age attribute, measured in seconds from the time
the response is received. -/
structure Cookie where
  name : String
  value : String
  maxAge : Int
  path : String
  domain : String
  secure : Bool
  httpOnly : Bool
deriving Repr, DecidableEq

/-- Embeds the Go comparison `ctx.Query("state") != session.Get("state")`
(negated: this is the equality).  `session.Get` returns `interface` and
yields nil when no value is stored; in Go a string compared with a nil
interface value is never equal, so an absent session state matches no
query string, not even the empty one. -/
def sessionEq (q : String) (stored : Option String) : Bool :=
  match stored with
  | none => false
  | some s => q == s

/-- Response of `callbackHandler`.  `exchangeAttempted` records whether
control reached the `s.oauth2config.Exchange` call.  `sessionStateAfter`
is the session `state` value as the client keeps it after the request:
the handler body contains no `session.Set`, `session.Delete` or
`session.Save` call, so it is the value the request arrived with. -/
structure CallbackOut where
  status : Nat
  redirect : Option String
  cookies : List Cookie
  exchangeAttempted : Bool
  sessionStateAfter : Option String
deriving Repr, DecidableEq

/-- The `access_token` cookie written on callback success:
`ctx.SetCookie("access_token", token.AccessToken,
int(time.Now().Add(1*time.Hour).Unix()), "/", "localhost", true, false)`.
With `now` the current Unix time in seconds, the third argument is
`now + 3600` (the Unix timestamp of one hour from now), which gin uses as
the Max-Age in seconds. -/
def accessTokenCookie (tok : String) (now : Int) : Cookie :=
  ⟨"access_token", tok, now + 3600, "/", "localhost", true, false⟩

/-- The `profile` cookie written on callback success, same Max-Age
argument as `accessTokenCookie`. -/
def profileCookie (body : String) (now : Int) : Cookie :=
  ⟨"profile", body, now + 3600, "/", "localhost", true, false⟩

/-- Embeds `callbackHandler` (`main.go`).  Inputs: the session `state`
value the request carries, the `state` and `code` query parameters
(`ctx.Query` returns the empty string for an absent parameter), the
outcome of `oauth2.Config.Exchange` for each code (`none` = error), the
outcome of the user-info fetch for each token (`none` = `client.Get`
error, `some none` = `ioutil.ReadAll` error, `some (some body)` = body
read), and the current Unix time in seconds. -/
def callbackHandler (sessionState : Option String) (qState qCode : String)
    (exchange : String → Option Token)
    (userinfoGet : Token → Option (Option String))
    (now : Int) : CallbackOut :=
  if !(sessionEq qState sessionState) then
    -- ctx.String(http.StatusBadRequest, "Invalid state parameter."); return
    ⟨400, none, [], false, sessionState⟩
  else
    match exchange qCode with
    | none =>
      -- ctx.JSON(http.StatusInternalServerError, "could not exchange oauth code")
      ⟨500, none, [], true, sessionState⟩
    | some token =>
      if !token.valid then
        -- ctx.JSON(http.StatusInternalServerError, "invalid access token")
        ⟨500, none, [], true, sessionState⟩
      else
        match userinfoGet token with
        | none =>
          -- client.Get error: ctx.JSON(http.StatusInternalServerError, ...)
          ⟨500, none, [], true, sessionState⟩
        | some none =>
          -- ioutil.ReadAll error: ctx.JSON(http.StatusInternalServerError, ...)
          ⟨500, none, [], true, sessionState⟩
        | some (some body) =>
          -- two SetCookie calls then Redirect(http.StatusTemporaryRedirect, "/profile")
          ⟨307, some "/profile",
            [accessTokenCookie token.accessToken now, profileCookie body now],
            true, sessionState⟩

/-- Response of `loginHandler`.  `storedState` is the session `state`
value as persisted to the client: `session.Set` mutates only the
in-memory session, so the value reaches the client exactly when
`session.Save` succeeds; otherwise the client keeps its prior value. -/
structure LoginOut where
  status : Nat
  redirect : Option String
  storedState : Option String
deriving Repr, DecidableEq

/-- Embeds `loginHandler` (`main.go`).  `genState` is the outcome of
`generateRandomString()` (`none` = the crypto random source failed),
`saveOk` the outcome of `session.Save()`, `authCodeURL` the external
`oauth2.Config.AuthCodeURL`, and `priorState` the session `state` value
the request arrived with. -/
def loginHandler (genState : Option String) (saveOk : Bool)
    (authCodeURL : String → String) (priorState : Option String) : LoginOut :=
  match genState with
  | none =>
    -- ctx.String(http.StatusInternalServerError, err.Error()); return
    ⟨500, none, priorState⟩
  | some st =>
    if saveOk then
      -- ctx.Redirect(http.StatusTemporaryRedirect, s.oauth2config.AuthCodeURL(state))
      ⟨307, some (authCodeURL st), some st⟩
    else
      -- session.Save failed: ctx.String(http.StatusInternalServerError, ...); return
      ⟨500, none, priorState⟩

/-- The two cookies written at the start of `logoutHandler`:
`ctx.SetCookie("access_token", "", int(time.Now().Add(-1*time.Hour).Unix()), "/", "", false, true)`
and the same for `"profile"`.  With `now` the current Unix time in
seconds the third argument is `now - 3600` (the Unix timestamp of one
hour ago), used by gin as the Max-Age in seconds. -/
def logoutClearCookies (now : Int) : List Cookie :=
  [⟨"access_token", "", now - 3600, "/", "", false, true⟩,
   ⟨"profile", "", now - 3600, "/", "", false, true⟩]

/-- Response of `logoutHandler`. -/
structure LogoutOut where
  status : Nat
  redirect : Option String
  cookies : List Cookie
deriving Repr, DecidableEq

/-- Embeds `logoutHandler` (`main.go`).  The two clearing `SetCookie`
calls come first, unconditionally.  `logoutUrlParse` is the outcome of
`url.Parse` on the provider logout endpoint and `returnToParse` the
outcome of `url.Parse` on the originating host URL (`none` = error).
`encodeQuery clientId returnTo` stands for the stdlib
`url.Values.Encode` serialization of the two query parameters appended
to the parsed logout URL by `logoutUrl.String()`. -/
def logoutHandler (now : Int) (logoutUrlParse returnToParse : Option String)
    (encodeQuery : String → String → String) (clientId : String) : LogoutOut :=
  let cookies := logoutClearCookies now
  match logoutUrlParse with
  | none =>
    -- ctx.String(http.StatusInternalServerError, err.Error()); return
    ⟨500, none, cookies⟩
  | some lu =>
    match returnToParse with
    | none =>
      -- ctx.String(http.StatusInternalServerError, err.Error()); return
      ⟨500, none, cookies⟩
    | some rt =>
      -- ctx.Redirect(http.StatusTemporaryRedirect, logoutUrl.String())
      ⟨307, some (lu ++ "?" ++ encodeQuery clientId rt), cookies⟩

/-- Decision of the `IsAuthenticated` middleware: `allow` embeds
`ctx.Next()` (the wrapped handler chain executes), `deny status location`
embeds `ctx.Redirect(status, location)` followed by `ctx.Abort()`. -/
inductive GuardDecision where
  | allow
  | deny (status : Nat) (location : String)
deriving Repr, DecidableEq

/-- Embeds `IsAuthenticated` (`main.go`).  `accessTokenCk` is the request
cookie named `access_token`: `none` when `ctx.Cookie` returns an error
(cookie absent), `some v` its value otherwise.  The guard redirects with
`http.StatusTemporaryRedirect` (307) to `/` when the cookie is absent or
its value is the empty string, and otherwise calls `ctx.Next()`. -/
def IsAuthenticated (accessTokenCk : Option String) : GuardDecision :=
  match accessTokenCk with
  | none => .deny 307 "/"
  | some tok =>
    if tok = "" then .deny 307 "/"
    else .allow

/-- Response of the `/profile` route (guard plus wrapped handler).
`handlerExecuted` records whether control entered the wrapped handler
closure; `renderedProfile` is the `Profile` value passed to `ctx.HTML`
when the page is rendered; `loggedUnmarshalError` records the
`fmt.Println(err)` on a `json.Unmarshal` failure. -/
structure ProfileOut where
  status : Nat
  redirect : Option String
  handlerExecuted : Bool
  renderedProfile : Option Profile
  loggedUnmarshalError : Bool
deriving Repr, DecidableEq

/-- Embeds the `/profile` route of `main.go`: `IsAuthenticated()` runs
first; on `allow`, the wrapped handler reads the `profile` cookie
(`none` = `ctx.Cookie` error, redirect 307 to `/` and abort), then
`json.Unmarshal` decodes it into `var p Profile`.  `unmarshal` is the
outcome of `json.Unmarshal` (`none` = error).  On malformed JSON,
`encoding/json` validates the whole input before decoding and decodes
nothing, so `p` keeps its zero value; the handler prints the error and
renders the page regardless. -/
def profileRoute (accessTokenCk profileCk : Option String)
    (unmarshal : String → Option Profile) : ProfileOut :=
  match IsAuthenticated accessTokenCk with
  | .deny st loc => ⟨st, some loc, false, none, false⟩
  | .allow =>
    match profileCk with
    | none =>
      -- ctx.Redirect(http.StatusTemporaryRedirect, "/"); ctx.Abort(); return
      ⟨307, some "/", true, none, false⟩
    | some raw =>
      match unmarshal raw with
      | none =>
        -- fmt.Println(err), then ctx.HTML(http.StatusOK, "profile.html", ...) with zero p
        ⟨200, none, true, some zeroProfile, true⟩
      | some p =>
        ⟨200, none, true, some p, false⟩

/-! ## Theorems -/

/-- Helper: `callbackHandler` never mutates the session state; the value
after the request equals the value it arrived with, in every branch. -/
theorem callback_sessionState_invariant (ss : Option String) (qs qc : String)
    (ex : String → Option Token) (ui : Token → Option (Option String)) (now : Int) :
    (callbackHandler ss qs qc ex ui now).sessionStateAfter = ss := by
  unfold callbackHandler
  repeat' split
  all_goals rfl

/-- Claim C1: a callback whose `state` query parameter differs from the
state value last issued to the session — including when no state is
pending — is rejected with HTTP 400; no code exchange is attempted, no
cookie is written and no redirect is issued, regardless of the validity
of the `code` parameter. -/
theorem callback_state_mismatch_rejected
    (ss : Option String) (qs qc : String)
    (ex : String → Option Token) (ui : Token → Option (Option String)) (now : Int)
    (hmism : ∀ s, ss = some s → qs ≠ s) :
    (callbackHandler ss qs qc ex ui now).status = 400 ∧
    (callbackHandler ss qs qc ex ui now).exchangeAttempted = false ∧
    (callbackHandler ss qs qc ex ui now).cookies = [] ∧
    (callbackHandler ss qs qc ex ui now).redirect = none := by
  have h : sessionEq qs ss = false := by
    cases ss with
    | none => rfl
    | some s => simpa [sessionEq] using hmism s rfl
  simp [callbackHandler, h]

/-- Witness for C1: no state is pending, the code is exchangeable for a
valid token, and the callback is still rejected with 400 and no exchange. -/
theorem callback_state_mismatch_rejected_witness :
    (callbackHandler none "forged" "validcode" (fun _ => some (Token.mk "tok" false))
        (fun _ => some (some "body")) 0).status = 400 ∧
    (callbackHandler none "forged" "validcode" (fun _ => some (Token.mk "tok" false))
        (fun _ => some (some "body")) 0).exchangeAttempted = false ∧
    (callbackHandler none "forged" "validcode" (fun _ => some (Token.mk "tok" false))
        (fun _ => some (some "body")) 0).cookies = [] ∧
    (callbackHandler none "forged" "validcode" (fun _ => some (Token.mk "tok" false))
        (fun _ => some (some "body")) 0).redirect = none :=
  callback_state_mismatch_rejected none "forged" "validcode"
    (fun _ => some (Token.mk "tok" false)) (fun _ => some (some "body")) 0
    (fun _ h => Option.noConfusion h)

/-- Counterexample to claim C2 as stated: the pending state `abc` of a
session survives a successful callback verification, and a second
callback with the same (session, state) pair succeeds as well — the
verification succeeds twice, not at most once. -/
theorem callback_state_reused_twice :
    (callbackHandler (some "abc") "abc" "code1" (fun _ => some (Token.mk "tok" false))
        (fun _ => some (some "body")) 0).status = 307 ∧
    (callbackHandler (some "abc") "abc" "code1" (fun _ => some (Token.mk "tok" false))
        (fun _ => some (some "body")) 0).sessionStateAfter = some "abc" ∧
    (callbackHandler
        ((callbackHandler (some "abc") "abc" "code1" (fun _ => some (Token.mk "tok" false))
            (fun _ => some (some "body")) 0).sessionStateAfter)
        "abc" "code1" (fun _ => some (Token.mk "tok" false))
        (fun _ => some (some "body")) 0).status = 307 :=
  ⟨rfl, rfl, rfl⟩

/-- Claim C2 (amended): callback verification reads the pending state
without removing it — the session state after the request equals the one
it arrived with, so repeating the same callback against the resulting
session state behaves identically to the first one (in particular a
successful verification succeeds again). -/
theorem callback_state_not_single_use (ss : Option String) (qs qc : String)
    (ex : String → Option Token) (ui : Token → Option (Option String)) (now : Int) :
    (callbackHandler ss qs qc ex ui now).sessionStateAfter = ss ∧
    callbackHandler (callbackHandler ss qs qc ex ui now).sessionStateAfter qs qc ex ui now
      = callbackHandler ss qs qc ex ui now := by
  refine ⟨callback_sessionState_invariant ss qs qc ex ui now, ?_⟩
  rw [callback_sessionState_invariant ss qs qc ex ui now]

/-- Claim C3: the callback writes credential cookies exactly when the
state matches, the code exchange succeeds, the token is valid, and the
user-info fetch and body read succeed; and the cookies written are always
both of `access_token` and `profile` or none (no incomplete credential). -/
theorem callback_credential_iff_all_succeed (ss : Option String) (qs qc : String)
    (ex : String → Option Token) (ui : Token → Option (Option String)) (now : Int) :
    ((callbackHandler ss qs qc ex ui now).cookies ≠ [] ↔
      (sessionEq qs ss = true ∧ ∃ t, ex qc = some t ∧ t.valid = true ∧
        ∃ b, ui t = some (some b))) ∧
    ((callbackHandler ss qs qc ex ui now).cookies.map Cookie.name = [] ∨
      (callbackHandler ss qs qc ex ui now).cookies.map Cookie.name
        = ["access_token", "profile"]) := by
  by_cases h1 : sessionEq qs ss
  · cases hex : ex qc with
    | none => simp [callbackHandler, h1, hex]
    | some t =>
      by_cases hv : t.valid
      · cases hui : ui t with
        | none => simp [callbackHandler, h1, hex, hv, hui]
        | some ob =>
          cases ob with
          | none => simp [callbackHandler, h1, hex, hv, hui]
          | some b =>
            simp [callbackHandler, h1, hex, hv, hui, accessTokenCookie, profileCookie]
      · simp [callbackHandler, h1, hex, hv]
  · simp [callbackHandler, h1]

/-- Counterexample to claim C4 as stated: a request whose only credential
is an expired token (so it lacks a valid, non-expired Credential) is
allowed through the Route Guard and the protected handler executes,
answering 200 instead of a 307 redirect. -/
theorem guard_allows_expired_credential :
    Token.valid (Token.mk "tok" true) = false ∧
    IsAuthenticated (some "tok") = GuardDecision.allow ∧
    (profileRoute (some "tok") (some "rawprofile") (fun _ => some zeroProfile)).handlerExecuted
      = true ∧
    (profileRoute (some "tok") (some "rawprofile") (fun _ => some zeroProfile)).status = 200 :=
  ⟨rfl, rfl, rfl, rfl⟩

/-- Claim C4 (amended): the Route Guard denies every GET /profile request
whose `access_token` cookie is absent or empty, producing a 307 redirect
to `/`, and the protected handler never executes in that case. -/
theorem guard_denies_absent_or_empty (profileCk : Option String)
    (unmarshal : String → Option Profile) :
    profileRoute none profileCk unmarshal
      = ProfileOut.mk 307 (some "/") false none false ∧
    profileRoute (some "") profileCk unmarshal
      = ProfileOut.mk 307 (some "/") false none false ∧
    IsAuthenticated none = GuardDecision.deny 307 "/" ∧
    IsAuthenticated (some "") = GuardDecision.deny 307 "/" :=
  ⟨rfl, rfl, rfl, rfl⟩

/-- Claim C5 evaluated at the failing input: a fully successful callback
at Unix time 1760000000 writes both cookies with Max-Age 1760003600
seconds — the Unix timestamp of one hour from now, about 55.8 years —
instead of the 3600-second (1-hour) TTL the specification states. -/
theorem callback_cookie_maxAge_is_timestamp :
    ((callbackHandler (some "abc") "abc" "code" (fun _ => some (Token.mk "tok" false))
        (fun _ => some (some "body")) 1760000000).cookies.map Cookie.maxAge
      = [1760003600, 1760003600]) ∧
    (1760003600 : Int) ≠ 3600 :=
  ⟨rfl, by decide⟩

/-- Claim C6 evaluated at the failing input: logout at Unix time
1760000000 overwrites both cookie values with the empty string but sets
Max-Age to 1759996400 seconds — the Unix timestamp of one hour ago, a
positive value about 55.7 years in the future — so the replacement entry
is not expired at all. -/
theorem logout_cookie_maxAge_far_future :
    ((logoutHandler 1760000000 (some "https://example/v2/logout") (some "http://host")
        (fun a b => a ++ "&" ++ b) "cid").cookies.map Cookie.maxAge
      = [1759996400, 1759996400]) ∧
    ((logoutHandler 1760000000 (some "https://example/v2/logout") (some "http://host")
        (fun a b => a ++ "&" ++ b) "cid").cookies.map Cookie.value = ["", ""]) ∧
    (0 : Int) < 1759996400 :=
  ⟨rfl, rfl, by decide⟩

/-- Claim C7: logout always overwrites the `access_token` and `profile`
cookies with empty values — also when either URL parse fails — and in a
parse-failure case it answers a local 500 error with no redirect, while a
redirect (307) is issued exactly when both parses succeed. -/
theorem logout_always_clears (now : Int) (lup rtp : Option String)
    (enc : String → String → String) (cid : String) :
    ((logoutHandler now lup rtp enc cid).cookies.map (fun c => (c.name, c.value))
      = [("access_token", ""), ("profile", "")]) ∧
    (logoutHandler now lup rtp enc cid).status
      = (if lup.isSome && rtp.isSome then 307 else 500) ∧
    (logoutHandler now lup rtp enc cid).redirect.isSome = (lup.isSome && rtp.isSome) := by
  cases lup <;> cases rtp <;> simp [logoutHandler, logoutClearCookies]

/-- Claim C8: GET /login either answers a server error (500) with no
redirect, or the freshly generated state is persisted in the session and
a 307 redirect to the provider authorization URL carrying that state is
issued; it never redirects without having stored the state. -/
theorem login_redirect_iff_state_stored (gen : Option String) (saveOk : Bool)
    (authCodeURL : String → String) (prior : Option String) :
    ((loginHandler gen saveOk authCodeURL prior).status = 500 ∧
      (loginHandler gen saveOk authCodeURL prior).redirect = none) ∨
    (∃ st, gen = some st ∧
      (loginHandler gen saveOk authCodeURL prior).storedState = some st ∧
      (loginHandler gen saveOk authCodeURL prior).status = 307 ∧
      (loginHandler gen saveOk authCodeURL prior).redirect = some (authCodeURL st)) := by
  cases gen with
  | none => exact Or.inl ⟨rfl, rfl⟩
  | some st =>
    cases saveOk with
    | false => exact Or.inl ⟨rfl, rfl⟩
    | true => exact Or.inr ⟨st, rfl, rfl, rfl, rfl⟩

/-- Claim C9: when the guard passes and the `profile` cookie is present
but `json.Unmarshal` fails on it, the handler logs the error and renders
the page with status 200 and the zero-value profile — it neither rejects
the request nor treats the user as unauthenticated. -/
theorem profile_malformed_json_renders_zero (tok raw : String)
    (unmarshal : String → Option Profile)
    (htok : tok ≠ "") (hum : unmarshal raw = none) :
    profileRoute (some tok) (some raw) unmarshal
      = ProfileOut.mk 200 none true (some zeroProfile) true := by
  unfold profileRoute IsAuthenticated
  simp [htok, hum]

/-- Witness for C9: a non-empty token cookie and a profile cookie whose
JSON decoding fails yield the 200 page with the zero profile. -/
theorem profile_malformed_json_renders_zero_witness :
    ("t" : String) ≠ "" ∧
    (fun _ : String => (none : Option Profile)) "notjson" = none ∧
    profileRoute (some "t") (some "notjson") (fun _ : String => (none : Option Profile))
      = ProfileOut.mk 200 none true (some zeroProfile) true :=
  ⟨by decide, rfl,
    profile_malformed_json_renders_zero "t" "notjson"
      (fun _ : String => (none : Option Profile)) (by decide) rfl⟩

/-- Claim C10: the guard inspects only presence and non-emptiness of the
`access_token` cookie — any non-empty value, whatever its contents, makes
the guard allow the request, and the protected handler chain executes. -/
theorem guard_checks_only_nonempty (tok : String) (profileCk : Option String)
    (unmarshal : String → Option Profile) (h : tok ≠ "") :
    IsAuthenticated (some tok) = GuardDecision.allow ∧
    (profileRoute (some tok) profileCk unmarshal).handlerExecuted = true := by
  have hg : IsAuthenticated (some tok) = GuardDecision.allow := by
    simp [IsAuthenticated, h]
  refine ⟨hg, ?_⟩
  unfold profileRoute
  rw [hg]
  cases profileCk with
  | none => rfl
  | some raw => cases hur : unmarshal raw <;> simp [hur]

/-- Witness for C10: an arbitrary garbage token passes the guard and the
handler executes. -/
theorem guard_checks_only_nonempty_witness :
    ("garbage" : String) ≠ "" ∧
    IsAuthenticated (some "garbage") = GuardDecision.allow ∧
    (profileRoute (some "garbage") (some "pj")
        (fun _ : String => some zeroProfile)).handlerExecuted = true :=
  ⟨by decide,
    (guard_checks_only_nonempty "garbage" (some "pj")
      (fun _ : String => some zeroProfile) (by decide)).1,
    (guard_checks_only_nonempty "garbage" (some "pj")
      (fun _ : String => some zeroProfile) (by decide)).2⟩
